import Mathlib

/-!
Verification of the Receipt-Tracking-Application event relay and its
frontend client, as a shallow embedding in Lean 4.

The relay core itself (`communication/pubsub_publisher.py`,
`communication/pubsub_listener.py`, `communication/client_manager.py`,
`communication/websocket_server.py`) is documented in the repository
(`src/unnamed/part_000`, the communication module README) but its code is
not present under `src/`; the definitions for those components are
modelled from the spec and are marked as such in their doc comments.
The frontend client (`src/unnamed/part_002`, `userPage.tsx` and the
receipt-fetch path) is present in `src/` and is embedded directly from
that source.
-/

namespace ReceiptRelay

/-- Event kinds relayed by the system. README message format: `type` is
`"receipt_update"` or `"receipt_upload"`; spec section 3: `kind` is one of
`receipt_upload`, `receipt_update`. -/
inductive EventKind where
  | receipt_upload
  | receipt_update
  deriving DecidableEq, Repr

/-- Event statuses. README: `"received"`, `"processing_started"`,
`"processed"`, `"failed"`. -/
inductive EventStatus where
  | received
  | processing_started
  | processed
  | failed
  deriving DecidableEq, Repr

/-- String tag carried on the wire for an event kind (the `type` field). -/
def kindTag : EventKind → String
  | .receipt_upload => "receipt_upload"
  | .receipt_update => "receipt_update"

/-- String tag carried on the wire for an event status (the `status` field). -/
def statusTag : EventStatus → String
  | .received => "received"
  | .processing_started => "processing_started"
  | .processed => "processed"
  | .failed => "failed"

/-- Decoding of an event-kind tag, the inverse direction of `kindTag`. -/
def parseKind (s : String) : Option EventKind :=
  if s = "receipt_upload" then some .receipt_upload
  else if s = "receipt_update" then some .receipt_update
  else none

/-- Decoding of a status tag, the inverse direction of `statusTag`. -/
def parseStatus (s : String) : Option EventStatus :=
  if s = "received" then some .received
  else if s = "processing_started" then some .processing_started
  else if s = "processed" then some .processed
  else if s = "failed" then some .failed
  else none

/-- The caller-supplied part of an event, as handed to the Publisher:
`kind`, `status`, `subject_id`, `owner_id` and nothing else — in
particular no `occurred_at` field exists on this type. -/
structure PartialEvent where
  kind : EventKind
  status : EventStatus
  subject_id : String
  owner_id : String
  deriving DecidableEq, Repr

/-- The full Event Record flowing end to end (spec section 3). -/
structure EventRecord where
  kind : EventKind
  status : EventStatus
  subject_id : String
  owner_id : String
  occurred_at : String
  deriving DecidableEq, Repr

/-- A UTC wall-clock instant at second precision, the input of the fixed
textual timestamp format `YYYY-MM-DDTHH:MM:SSZ`. -/
structure DateTime where
  year : Nat
  month : Nat
  day : Nat
  hour : Nat
  minute : Nat
  second : Nat
  deriving DecidableEq, Repr

/-- The ASCII digit character for `n % 10`. -/
def digitChar (n : Nat) : Char := Char.ofNat (48 + n % 10)

/-- Modelled from the spec: the Publisher (`pubsub_publisher.py`, not under
`src/`) stamps timestamps in the fixed zero-padded UTC format
`YYYY-MM-DDTHH:MM:SSZ` (README: `"2025-03-26T22:30:00Z"` is added
automatically in this format). Fixed-width zero-padded rendering of a
`DateTime` as the 20 characters of that format. -/
def utcChars (t : DateTime) : List Char :=
  [digitChar (t.year / 1000), digitChar (t.year / 100),
   digitChar (t.year / 10), digitChar t.year,
   '-', digitChar (t.month / 10), digitChar t.month,
   '-', digitChar (t.day / 10), digitChar t.day,
   'T', digitChar (t.hour / 10), digitChar t.hour,
   ':', digitChar (t.minute / 10), digitChar t.minute,
   ':', digitChar (t.second / 10), digitChar t.second,
   'Z']

/-- The textual timestamp the Publisher stamps at submission time. -/
def formatUtc (t : DateTime) : String := ⟨utcChars t⟩

/-- Recognizer for the fixed UTC format `YYYY-MM-DDTHH:MM:SSZ`: exactly 20
characters, digits in the date/time positions, literal separators
`-`, `-`, `T`, `:`, `:` and a trailing `Z`. -/
def matchesUtcFormat (s : String) : Bool :=
  match s.data with
  | [y1, y2, y3, y4, a, m1, m2, b, d1, d2, c, h1, h2, e, n1, n2, f, s1, s2, z] =>
    y1.isDigit && y2.isDigit && y3.isDigit && y4.isDigit &&
    (a == '-') && m1.isDigit && m2.isDigit &&
    (b == '-') && d1.isDigit && d2.isDigit &&
    (c == 'T') && h1.isDigit && h2.isDigit &&
    (e == ':') && n1.isDigit && n2.isDigit &&
    (f == ':') && s1.isDigit && s2.isDigit &&
    (z == 'Z')
  | _ => false

/-- Wire serialization of an Event Record. Modelled from the spec: the
serializer (in `pubsub_publisher.py` / the relay, not under `src/`)
produces structured field-tagged data with exactly the five contract
fields `type`, `status`, `receipt_id`, `user_uid`, `timestamp` (spec
section 6), in the name mapping given there. -/
def serializeEvent (ev : EventRecord) : List (String × String) :=
  [("type", kindTag ev.kind),
   ("status", statusTag ev.status),
   ("receipt_id", ev.subject_id),
   ("user_uid", ev.owner_id),
   ("timestamp", ev.occurred_at)]

/-- First-match field lookup in a field-tagged payload. -/
def lookupField : List (String × String) → String → Option String
  | [], _ => none
  | (k, v) :: rest, key => if k = key then some v else lookupField rest key

/-- The field names of a payload, in order. -/
def fieldKeys (body : List (String × String)) : List String :=
  body.map Prod.fst

/-- Modelled from the spec: the Channel Listener (`pubsub_listener.py`, not
under `src/`) decodes an inbound message body into an Event Record,
failing when a required field is missing or its tag is unrecognized. -/
def decodeEvent (body : List (String × String)) : Option EventRecord :=
  match lookupField body "type", lookupField body "status",
        lookupField body "receipt_id", lookupField body "user_uid",
        lookupField body "timestamp" with
  | some t, some st, some rid, some uid, some ts =>
    match parseKind t, parseStatus st with
    | some k, some s => some ⟨k, s, rid, uid, ts⟩
    | _, _ => none
  | _, _, _, _, _ => none

/-- The Event Record the submission path constructs: the caller's four
fields plus an `occurred_at` stamped from the submission-time clock. -/
def mkRecord (now : DateTime) (p : PartialEvent) : EventRecord :=
  ⟨p.kind, p.status, p.subject_id, p.owner_id, formatUtc now⟩

/-- Modelled from the spec: `publish_event` / `submit(project_identifier,
topic_identifier, partial_event)` (`pubsub_publisher.py`, not under
`src/`) stamps `occurred_at` itself at submission time, serializes the
record and sends it to the channel identified by the first two
arguments; the returned value is the serialized message body. -/
def submit (_projectId : String) (_topicId : String) (now : DateTime)
    (p : PartialEvent) : List (String × String) :=
  serializeEvent (mkRecord now p)

theorem digitChar_isDigit (n : Nat) : (digitChar n).isDigit = true := by
  have h : n % 10 < 10 := Nat.mod_lt _ (by norm_num)
  unfold digitChar
  set k := n % 10 with hk
  interval_cases k <;> decide

theorem matchesUtcFormat_formatUtc (t : DateTime) :
    matchesUtcFormat (formatUtc t) = true := by
  simp [matchesUtcFormat, formatUtc, utcChars, digitChar_isDigit]

theorem parseKind_kindTag (k : EventKind) : parseKind (kindTag k) = some k := by
  cases k <;> rfl

theorem parseStatus_statusTag (s : EventStatus) :
    parseStatus (statusTag s) = some s := by
  cases s <;> rfl

theorem decode_serialize (ev : EventRecord) :
    decodeEvent (serializeEvent ev) = some ev := by
  obtain ⟨k, s, rid, uid, ts⟩ := ev
  cases k <;> cases s <;> rfl

/-- Modelled from the spec: the Connection Registry (`client_manager.py`,
not under `src/`) is the in-memory collection of currently connected
clients, keyed by `connection_id` (modelled as `Nat`). -/
structure Registry where
  conns : List Nat
  deriving DecidableEq, Repr

/-- The Registry at process start: no connections. -/
def Registry.empty : Registry := ⟨[]⟩

/-- Modelled from the spec: `register(connection)` adds a new open
connection; the collection is keyed by `connection_id`, so adding an
already-present id leaves the collection unchanged. -/
def register (r : Registry) (id : Nat) : Registry :=
  if id ∈ r.conns then r else ⟨r.conns ++ [id]⟩

/-- Modelled from the spec: `unregister(connection_id)` is idempotent
removal, safe on ids that are not present. -/
def unregister (r : Registry) (id : Nat) : Registry :=
  ⟨r.conns.filter (fun c => !(c == id))⟩

/-- Modelled from the spec: `snapshot()` returns a consistent point-in-time
view of the registered connections for iteration by the Broadcaster. -/
def snapshot (r : Registry) : List Nat := r.conns

/-- One mutation of the Registry, as issued by the Connection Acceptor. -/
inductive RegOp where
  | register (id : Nat)
  | unregister (id : Nat)
  deriving DecidableEq, Repr

/-- The connection_id an operation concerns. -/
def RegOp.opId : RegOp → Nat
  | .register id => id
  | .unregister id => id

/-- Whether an operation is a registration. -/
def RegOp.isReg : RegOp → Bool
  | .register _ => true
  | .unregister _ => false

/-- Application of one Registry operation. -/
def applyOp (r : Registry) : RegOp → Registry
  | .register id => register r id
  | .unregister id => unregister r id

/-- Application of a finite sequence of Registry operations in order. -/
def applyOps (r : Registry) (ops : List RegOp) : Registry :=
  ops.foldl applyOp r

/-- The spec-side reading of "registered and not yet unregistered": among
the operations concerning `id`, the last one is a registration. -/
def specLive (ops : List RegOp) (id : Nat) : Bool :=
  match (ops.filter (fun op => op.opId == id)).getLast? with
  | some op => op.isReg
  | none => false

/-- Modelled from the spec: `broadcast(event)` takes a snapshot from the
Registry and attempts delivery of the serialized payload to every
connection in it; per-connection outcomes are modelled by the oracle
`fails`. It returns the per-connection attempt outcomes (total — it
never fails itself) and the Registry after the failing connections, and
only those, have been unregistered. -/
def broadcast (r : Registry) (_payload : List (String × String))
    (fails : Nat → Bool) : List (Nat × Bool) × Registry :=
  ((snapshot r).map (fun id => (id, !fails id)),
   ((snapshot r).filter fails).foldl unregister r)

theorem mem_register (r : Registry) (j id : Nat) :
    id ∈ (register r j).conns ↔ id ∈ r.conns ∨ id = j := by
  unfold register
  by_cases h : j ∈ r.conns
  · simp only [if_pos h]
    constructor
    · exact Or.inl
    · rintro (hm | rfl)
      · exact hm
      · exact h
  · simp [if_neg h, List.mem_append]

theorem mem_unregister (r : Registry) (j id : Nat) :
    id ∈ (unregister r j).conns ↔ id ∈ r.conns ∧ id ≠ j := by
  simp [unregister, List.mem_filter]

theorem nodup_register (r : Registry) (j : Nat) (h : r.conns.Nodup) :
    (register r j).conns.Nodup := by
  unfold register
  by_cases hj : j ∈ r.conns
  · simpa [if_pos hj] using h
  · simp only [if_neg hj]
    simpa [List.nodup_append] using ⟨h, hj⟩

theorem nodup_unregister (r : Registry) (j : Nat) (h : r.conns.Nodup) :
    (unregister r j).conns.Nodup := by
  exact h.filter _

theorem nodup_applyOps (r : Registry) (ops : List RegOp)
    (h : r.conns.Nodup) : (applyOps r ops).conns.Nodup := by
  induction ops generalizing r with
  | nil => exact h
  | cons op rest ih =>
    cases op with
    | register j => exact ih _ (nodup_register r j h)
    | unregister j => exact ih _ (nodup_unregister r j h)

theorem mem_foldl_unregister (l : List Nat) (r : Registry) (id : Nat) :
    id ∈ (l.foldl unregister r).conns ↔ id ∈ r.conns ∧ id ∉ l := by
  induction l generalizing r with
  | nil => simp
  | cons a l ih =>
    rw [List.foldl_cons, ih, mem_unregister]
    simp only [List.mem_cons]
    constructor
    · rintro ⟨⟨hm, hne⟩, hnl⟩
      exact ⟨hm, by rintro (rfl | h) <;> [exact hne rfl; exact hnl h]⟩
    · rintro ⟨hm, hn⟩
      exact ⟨⟨hm, fun h => hn (Or.inl h)⟩, fun h => hn (Or.inr h)⟩

theorem specLive_concat (l : List RegOp) (op : RegOp) (id : Nat) :
    specLive (l ++ [op]) id =
      if op.opId = id then op.isReg else specLive l id := by
  unfold specLive
  rw [List.filter_append]
  by_cases h : op.opId = id
  · have hf : List.filter (fun o => o.opId == id) [op] = [op] := by simp [h]
    rw [if_pos h, hf, List.getLast?_concat]
  · have hf : List.filter (fun o => o.opId == id) [op] = [] := by simp [h]
    rw [if_neg h, hf, List.append_nil]

theorem mem_applyOps (ops : List RegOp) (id : Nat) :
    id ∈ (applyOps Registry.empty ops).conns ↔ specLive ops id = true := by
  induction ops using List.reverseRecOn with
  | nil => simp [applyOps, Registry.empty, specLive]
  | append_singleton l op ih =>
    have happ : applyOps Registry.empty (l ++ [op])
        = applyOp (applyOps Registry.empty l) op := by
      simp [applyOps, List.foldl_append]
    rw [happ, specLive_concat]
    cases op with
    | register j =>
      simp only [applyOp, RegOp.opId, RegOp.isReg]
      by_cases hj : j = id
      · subst hj
        simp [mem_register]
      · have hne : id ≠ j := fun h => hj h.symm
        rw [if_neg hj]
        simp [mem_register, hne, ih]
    | unregister j =>
      simp only [applyOp, RegOp.opId, RegOp.isReg]
      by_cases hj : j = id
      · subst hj
        simp [mem_unregister]
      · have hne : id ≠ j := fun h => hj h.symm
        rw [if_neg hj]
        simp [mem_unregister, hne, ih]

/-- The state the Channel Listener accumulates: the records it has handed
to the Broadcaster in order, the number of channel messages it has
acknowledged, and the number of decode failures it has recorded. -/
structure ListenerState where
  broadcasts : List EventRecord
  acked : Nat
  failures : Nat
  deriving DecidableEq, Repr

/-- Modelled from the spec: one step of the Channel Listener
(`pubsub_listener.py`, not under `src/`) on an inbound message body. On
successful decode it hands the record to the Broadcaster and
acknowledges; on decode failure it acknowledges (malformed messages are
permanently un-processable), records the failure, broadcasts nothing,
and never raises. -/
def handleMessage (st : ListenerState) (body : List (String × String)) :
    ListenerState :=
  match decodeEvent body with
  | some ev => { st with broadcasts := st.broadcasts ++ [ev], acked := st.acked + 1 }
  | none => { st with acked := st.acked + 1, failures := st.failures + 1 }

/-- The Listener processing a finite sequence of inbound messages. -/
def runListener (st : ListenerState) (msgs : List (List (String × String))) :
    ListenerState :=
  msgs.foldl handleMessage st

/-- The records a message sequence decodes to, in order. -/
def decodedEvents (msgs : List (List (String × String))) : List EventRecord :=
  msgs.filterMap decodeEvent

theorem runListener_broadcasts (msgs : List (List (String × String)))
    (st : ListenerState) :
    (runListener st msgs).broadcasts = st.broadcasts ++ decodedEvents msgs := by
  induction msgs generalizing st with
  | nil => simp [runListener, decodedEvents]
  | cons m ms ih =>
    rw [runListener, List.foldl_cons]
    cases h : decodeEvent m with
    | some ev =>
      rw [show ms.foldl handleMessage (handleMessage st m)
            = runListener (handleMessage st m) ms from rfl, ih]
      simp [handleMessage, h, decodedEvents, List.filterMap_cons]
    | none =>
      rw [show ms.foldl handleMessage (handleMessage st m)
            = runListener (handleMessage st m) ms from rfl, ih]
      simp [handleMessage, h, decodedEvents, List.filterMap_cons]

theorem runListener_acked (msgs : List (List (String × String)))
    (st : ListenerState) :
    (runListener st msgs).acked = st.acked + msgs.length := by
  induction msgs generalizing st with
  | nil => simp [runListener]
  | cons m ms ih =>
    rw [runListener, List.foldl_cons]
    rw [show ms.foldl handleMessage (handleMessage st m)
          = runListener (handleMessage st m) ms from rfl, ih]
    cases h : decodeEvent m with
    | some ev => simp [handleMessage, h]; omega
    | none => simp [handleMessage, h]; omega

/-- The `Receipt` interface of `userPage.tsx`. JS numbers are carried
through unchanged and never computed with, so they are embedded as `Int`. -/
structure Receipt where
  id : String
  raw_text : String
  store_name : String
  time : String
  date : String
  image_url : String
  user_uid : String
  total_amount : Int
  store_address : String
  processed_at : String
  confidence_score : Int
  deriving DecidableEq, Repr

/-- One row of the formatted table data built by `loadReceiptData`
(`userPage.tsx`, the `formattedData` mapping). -/
structure FormattedRow where
  key : String
  storeName : String
  storeAddress : String
  date : String
  time : String
  totalAmount : Int
  processedTime : String
  imageUrl : String
  deriving DecidableEq, Repr

/-- The per-receipt mapping inside `loadReceiptData` (`userPage.tsx`):
`data.map((receipt) => ({key: receipt.id, storeName: receipt.store_name, ...}))`. -/
def formatReceipt (r : Receipt) : FormattedRow :=
  ⟨r.id, r.store_name, r.store_address, r.date, r.time, r.total_amount,
   r.processed_at, r.image_url⟩

/-- The logged-in user as read from local storage; only its `uid` is used
by the message handler and the fetch path. -/
structure User where
  uid : String
  deriving DecidableEq, Repr

/-- A parsed WebSocket message as used by `ws.onmessage` (`userPage.tsx`):
only `msg.user_uid` and `msg.message` are read, and either may be
absent (`undefined` in JS, `none` here). JS strict equality between
possibly-undefined strings coincides with `Option String` equality. -/
structure WsMsg where
  user_uid : Option String
  message : Option String
  deriving DecidableEq, Repr

/-- The component state touched by the WebSocket handler: the notification
list and the displayed receipt table data. -/
structure PageState where
  notifications : List (Option String)
  receiptData : List FormattedRow
  deriving DecidableEq, Repr

/-- The possible outcomes of the HTTP fetch inside `fetchReceiptData`
(`userPage.tsx`): the fetch promise itself may reject with a runtime
error, or a response arrives with an `ok` flag and a body whose JSON
parse may itself reject. -/
inductive FetchOutcome where
  | networkError (e : String)
  | response (ok : Bool) (body : Except String (List Receipt))
  deriving Repr

/-- The try-block of `fetchReceiptData` (`userPage.tsx` lines 126-143):
await the fetch (a rejection propagates), throw
`"Failed to fetch receipts"` when `response.ok` is false, then await
`response.json()` (a rejection propagates) and return the data. -/
def fetchAttempt : FetchOutcome → Except String (List Receipt)
  | .networkError e => .error e
  | .response ok body => if ok then body else .error "Failed to fetch receipts"

/-- `fetchReceiptData` (`userPage.tsx` lines 126-143): the try-block wrapped
in the catch that logs the error and returns the empty list. -/
def fetchReceiptData (o : FetchOutcome) : List Receipt :=
  match fetchAttempt o with
  | .ok data => data
  | .error _ => []

/-- `loadReceiptData` (`userPage.tsx` lines 145-164): when a user is
present, fetch that user's receipts, format them and replace the
displayed table data; when no user is present, do nothing. -/
def loadReceiptData (user : Option User) (o : FetchOutcome)
    (st : PageState) : PageState :=
  match user with
  | some _ => { st with receiptData := (fetchReceiptData o).map formatReceipt }
  | none => st

/-- `ws.onmessage` (`userPage.tsx` lines 230-250): parse the message, and
when `msg.user_uid === user?.uid` append `msg.message` to the
notification list and, when the message text is exactly
`"Receipt processed successfully"`, reload the receipt data; otherwise
log and change nothing. `o` is the fetch outcome a reload would see. -/
def onMessage (user : Option User) (o : FetchOutcome) (st : PageState)
    (msg : WsMsg) : PageState :=
  if msg.user_uid = user.map User.uid then
    let st1 := { st with notifications := st.notifications ++ [msg.message] }
    if msg.message = some "Receipt processed successfully" then
      loadReceiptData user o st1
    else st1
  else st

theorem loadReceiptData_notifications (user : Option User) (o : FetchOutcome)
    (st : PageState) :
    (loadReceiptData user o st).notifications = st.notifications := by
  cases user <;> rfl

/-- The submission instant used in concrete checks below
(README example: `2025-03-26T22:30:00Z`). -/
def sampleNow : DateTime := ⟨2025, 3, 26, 22, 30, 0⟩

/-- The caller-supplied event of the spec's round-trip scenario. -/
def sampleP : PartialEvent := ⟨.receipt_update, .processed, "abc123", "u1"⟩

/-- A delivery-failure oracle under which exactly connection 1 fails. -/
def failsOne : Nat → Bool := fun id => id == 1

/-- A fresh Listener state. -/
def emptyListener : ListenerState := ⟨[], 0, 0⟩

/-- A malformed channel message body: the required `status` field is
missing. -/
def badBody : List (String × String) :=
  [("type", "receipt_update"), ("receipt_id", "abc123"),
   ("user_uid", "u1"), ("timestamp", "2025-03-26T22:00:00Z")]

/-- A well-formed channel message body. -/
def goodBody : List (String × String) :=
  [("type", "receipt_update"), ("status", "processed"),
   ("receipt_id", "abc123"), ("user_uid", "u1"),
   ("timestamp", "2025-03-26T22:00:00Z")]

/-- The Event Record `goodBody` decodes to. -/
def goodEv : EventRecord :=
  ⟨.receipt_update, .processed, "abc123", "u1", "2025-03-26T22:00:00Z"⟩

/-- Claim C1: a partial event submitted through the Publisher reaches every
currently connected client as one serialized record whose payload
carries exactly the five fields `type`, `status`, `receipt_id`,
`user_uid`, `timestamp`, with `type` the submitted kind's tag, `status`
the submitted status's tag, `receipt_id` = `subject_id`, `user_uid` =
`owner_id`, and `timestamp` in the fixed UTC format. -/
theorem wire_roundtrip (projectId topicId : String) (now : DateTime)
    (p : PartialEvent) (r : Registry) (id : Nat)
    (hnd : (snapshot r).Nodup) (hid : id ∈ snapshot r) :
    decodeEvent (submit projectId topicId now p) = some (mkRecord now p) ∧
    (broadcast r (serializeEvent (mkRecord now p)) (fun _ => false)).1
      = (snapshot r).map (fun c => (c, true)) ∧
    ((broadcast r (serializeEvent (mkRecord now p)) (fun _ => false)).1).Nodup ∧
    (id, true) ∈ (broadcast r (serializeEvent (mkRecord now p)) (fun _ => false)).1 ∧
    fieldKeys (serializeEvent (mkRecord now p))
      = ["type", "status", "receipt_id", "user_uid", "timestamp"] ∧
    lookupField (serializeEvent (mkRecord now p)) "type" = some (kindTag p.kind) ∧
    lookupField (serializeEvent (mkRecord now p)) "status" = some (statusTag p.status) ∧
    lookupField (serializeEvent (mkRecord now p)) "receipt_id" = some p.subject_id ∧
    lookupField (serializeEvent (mkRecord now p)) "user_uid" = some p.owner_id ∧
    lookupField (serializeEvent (mkRecord now p)) "timestamp" = some (formatUtc now) ∧
    matchesUtcFormat (formatUtc now) = true := by
  have hmap : (broadcast r (serializeEvent (mkRecord now p)) (fun _ => false)).1
      = (snapshot r).map (fun c => (c, true)) := by
    simp [broadcast]
  refine ⟨decode_serialize (mkRecord now p), hmap, ?_, ?_, rfl, rfl, rfl, rfl, rfl,
    rfl, matchesUtcFormat_formatUtc now⟩
  · rw [hmap]
    exact hnd.map (fun a b h => by simpa using congrArg Prod.fst h)
  · rw [hmap]
    exact List.mem_map_of_mem (fun c => (c, true)) hid

/-- Concrete instance of `wire_roundtrip`: the README scenario with three
connected clients, checked at client 2. -/
theorem wire_roundtrip_witness :
    decodeEvent (submit "receipt-tracking-application" "receipt-updates"
        sampleNow sampleP) = some (mkRecord sampleNow sampleP) :=
  (wire_roundtrip "receipt-tracking-application" "receipt-updates"
    sampleNow sampleP ⟨[1, 2, 3]⟩ 2 (by decide) (by decide)).1

/-- Claim C2: the serialized event's `occurred_at` / `timestamp` is stamped
by the submission path from the submission-time clock, in the fixed UTC
format, and does not depend on anything the caller supplies — the
caller-supplied partial event has no `occurred_at` at all. -/
theorem occurred_at_stamped_by_submit (projectId topicId : String)
    (now : DateTime) (p q : PartialEvent) :
    lookupField (submit projectId topicId now p) "timestamp"
      = some (formatUtc now) ∧
    (mkRecord now p).occurred_at = formatUtc now ∧
    (mkRecord now p).occurred_at = (mkRecord now q).occurred_at ∧
    matchesUtcFormat (formatUtc now) = true :=
  ⟨rfl, rfl, rfl, matchesUtcFormat_formatUtc now⟩

/-- Claim C3: after any finite sequence of register/unregister operations,
the snapshot holds no duplicate connection_id, and a connection_id is
in the snapshot exactly when it is registered-and-not-yet-unregistered
at that instant. -/
theorem registry_snapshot_consistency (ops : List RegOp) (id : Nat) :
    (snapshot (applyOps Registry.empty ops)).Nodup ∧
    (id ∈ snapshot (applyOps Registry.empty ops) ↔ specLive ops id = true) :=
  ⟨nodup_applyOps Registry.empty ops (by simp [Registry.empty]),
   mem_applyOps ops id⟩

/-- Claim C4: broadcast attempts delivery to every connection in the
snapshot; the outcome at each connection is determined by that
connection's own failure alone, broadcast itself always returns, and
exactly the failing connections are unregistered afterwards. -/
theorem broadcast_failure_isolation (r : Registry)
    (payload : List (String × String)) (fails : Nat → Bool) (id : Nat)
    (hid : id ∈ snapshot r) :
    (id, !fails id) ∈ (broadcast r payload fails).1 ∧
    (broadcast r payload fails).1.length = (snapshot r).length ∧
    (broadcast r payload fails).1
      = (snapshot r).map (fun c => (c, !fails c)) ∧
    (fails id = true → id ∉ ((broadcast r payload fails).2).conns) ∧
    (fails id = false → (id ∈ ((broadcast r payload fails).2).conns ↔ id ∈ r.conns)) := by
  refine ⟨List.mem_map_of_mem (fun c => (c, !fails c)) hid,
    List.length_map _ _, rfl, ?_, ?_⟩
  · intro h
    show id ∉ (((snapshot r).filter fails).foldl unregister r).conns
    rw [mem_foldl_unregister]
    rintro ⟨hm, hnf⟩
    exact hnf (List.mem_filter.mpr ⟨hid, h⟩)
  · intro h
    show id ∈ (((snapshot r).filter fails).foldl unregister r).conns ↔ id ∈ r.conns
    rw [mem_foldl_unregister]
    constructor
    · exact And.left
    · refine fun hm => ⟨hm, fun hf => ?_⟩
      rw [List.mem_filter, h] at hf
      exact Bool.false_ne_true hf.2

/-- Concrete instance of `broadcast_failure_isolation`: with connections 1
and 2 registered and a forced failure on connection 1, connection 2
still gets a successful delivery attempt. -/
theorem broadcast_failure_isolation_witness :
    ((2 : Nat), !failsOne 2) ∈ (broadcast ⟨[1, 2]⟩ [] failsOne).1 :=
  (broadcast_failure_isolation ⟨[1, 2]⟩ [] failsOne 2 (by decide)).1

/-- Claim C5: a channel message whose body fails to decode is acknowledged,
broadcasts nothing to any connection, does not crash the Listener, and
leaves the processing of all subsequent messages unchanged. -/
theorem malformed_message_contained (st : ListenerState)
    (body : List (String × String)) (rest : List (List (String × String)))
    (hb : decodeEvent body = none) :
    (handleMessage st body).broadcasts = st.broadcasts ∧
    (handleMessage st body).acked = st.acked + 1 ∧
    (handleMessage st body).failures = st.failures + 1 ∧
    (runListener st (body :: rest)).broadcasts
      = (runListener st rest).broadcasts ∧
    (runListener st (body :: rest)).acked = (runListener st rest).acked + 1 := by
  have hstep : runListener st (body :: rest)
      = runListener (handleMessage st body) rest := rfl
  refine ⟨by simp [handleMessage, hb], by simp [handleMessage, hb],
    by simp [handleMessage, hb], ?_, ?_⟩
  · rw [hstep, runListener_broadcasts, runListener_broadcasts]
    simp [handleMessage, hb]
  · rw [hstep, runListener_acked, runListener_acked]
    simp [handleMessage, hb]
    omega

/-- Concrete instance of `malformed_message_contained`: a body missing the
required `status` field hands nothing to the Broadcaster. -/
theorem malformed_message_contained_witness :
    (handleMessage emptyListener badBody).broadcasts
      = emptyListener.broadcasts :=
  (malformed_message_contained emptyListener badBody [] (by decide)).1

/-- Claim C6: `unregister` is idempotent — a second call with the same
connection_id is a no-op — and calling it on an absent connection_id
succeeds and leaves the Registry unchanged. -/
theorem unregister_idempotent (r : Registry) (id : Nat) :
    unregister (unregister r id) id = unregister r id ∧
    (id ∉ r.conns → unregister r id = r) := by
  obtain ⟨l⟩ := r
  constructor
  · simp [unregister, List.filter_filter]
  · intro h
    simp only [unregister, Registry.mk.injEq]
    refine List.filter_eq_self.mpr (fun a ha => ?_)
    simp only [Bool.not_eq_eq_eq_not, Bool.not_true, beq_eq_false_iff_ne]
    exact fun he => h (he ▸ ha)

/-- Concrete instance of `unregister_idempotent`: unregistering the absent
connection_id 3 leaves the Registry holding 1 and 2 unchanged. -/
theorem unregister_idempotent_witness :
    unregister ⟨[1, 2]⟩ 3 = (⟨[1, 2]⟩ : Registry) :=
  (unregister_idempotent ⟨[1, 2]⟩ 3).2 (by decide)

/-- Claim C7: the Listener does not deduplicate — each delivery of a
successfully decoding message produces one full broadcast, so two
deliveries of the same message produce two broadcasts of the same
Event Record. -/
theorem redelivery_no_dedup (st : ListenerState)
    (body : List (String × String)) (ev : EventRecord)
    (hd : decodeEvent body = some ev) :
    (handleMessage st body).broadcasts = st.broadcasts ++ [ev] ∧
    (runListener st [body, body]).broadcasts = st.broadcasts ++ [ev, ev] ∧
    (runListener st [body, body]).acked = st.acked + 2 := by
  refine ⟨by simp [handleMessage, hd], ?_, ?_⟩
  · rw [runListener_broadcasts]
    simp [decodedEvents, hd]
  · rw [runListener_acked]
    rfl

/-- Concrete instance of `redelivery_no_dedup`: delivering `goodBody` twice
hands `goodEv` to the Broadcaster twice. -/
theorem redelivery_no_dedup_witness :
    (runListener emptyListener [goodBody, goodBody]).broadcasts
      = emptyListener.broadcasts ++ [goodEv, goodEv] :=
  (redelivery_no_dedup emptyListener goodBody goodEv (by decide)).2.1

/-- Claim C8: the relay's delivery set does not depend on the payload (so
`owner_id` is not used for server-side targeting), and the client adds
a notification exactly when the message's `user_uid` equals the
logged-in user's uid; a non-matching message changes nothing visible. -/
theorem client_side_filtering (u : User) (o : FetchOutcome) (st : PageState)
    (msg : WsMsg) (r : Registry) (p p' : List (String × String))
    (fails : Nat → Bool) :
    (broadcast r p fails).1 = (broadcast r p' fails).1 ∧
    (onMessage (some u) o st msg).notifications
      = (if msg.user_uid = some u.uid then st.notifications ++ [msg.message]
         else st.notifications) ∧
    (msg.user_uid ≠ some u.uid → onMessage (some u) o st msg = st) := by
  refine ⟨rfl, ?_, ?_⟩
  · by_cases h1 : msg.user_uid = some u.uid
    · by_cases h2 : msg.message = some "Receipt processed successfully" <;>
        simp [onMessage, h1, h2, loadReceiptData_notifications]
    · simp [onMessage, h1]
  · intro h1
    simp [onMessage, h1]

/-- Claim C9: the handler reloads the displayed receipt data exactly when
the message matches the logged-in user's uid and its text is exactly
`"Receipt processed successfully"`; every other matching message adds
its notification but leaves the displayed receipt data unchanged. -/
theorem reload_only_on_processed_message (u : User) (o : FetchOutcome)
    (st : PageState) (msg : WsMsg) :
    (onMessage (some u) o st msg).receiptData
      = (if msg.user_uid = some u.uid ∧
            msg.message = some "Receipt processed successfully"
         then (fetchReceiptData o).map formatReceipt
         else st.receiptData) ∧
    (onMessage (some u) o st msg).notifications
      = (if msg.user_uid = some u.uid then st.notifications ++ [msg.message]
         else st.notifications) := by
  constructor
  · by_cases h1 : msg.user_uid = some u.uid <;>
      by_cases h2 : msg.message = some "Receipt processed successfully" <;>
      simp [onMessage, loadReceiptData, h1, h2]
  · by_cases h1 : msg.user_uid = some u.uid
    · by_cases h2 : msg.message = some "Receipt processed successfully" <;>
        simp [onMessage, h1, h2, loadReceiptData_notifications]
    · simp [onMessage, h1]

/-- Claim C10: `fetchReceiptData` is total over failures — on a rejected
fetch, a non-ok response, or a body that fails to parse it returns the
empty list, and `loadReceiptData` therefore always receives a plain
list, never an exception. -/
theorem fetchReceiptData_total_on_failure (o : FetchOutcome) :
    (∀ e, fetchAttempt o = Except.error e → fetchReceiptData o = []) ∧
    (∀ d, fetchAttempt o = Except.ok d → fetchReceiptData o = d) ∧
    (∀ e, fetchReceiptData (.networkError e) = []) ∧
    (∀ b, fetchReceiptData (.response false b) = []) ∧
    fetchReceiptData (.response true (Except.error "parse error")) = [] ∧
    (∀ u st, loadReceiptData (some u) o st
      = { st with receiptData := (fetchReceiptData o).map formatReceipt }) := by
  refine ⟨?_, ?_, fun e => rfl, fun b => rfl, rfl, fun u st => rfl⟩
  · intro e h
    unfold fetchReceiptData
    rw [h]
  · intro d h
    unfold fetchReceiptData
    rw [h]

/-- Concrete instance of `fetchReceiptData_total_on_failure`: a rejected
fetch yields the empty receipt list. -/
theorem fetchReceiptData_total_on_failure_witness :
    fetchReceiptData (.networkError "boom") = [] :=
  (fetchReceiptData_total_on_failure (.networkError "boom")).1 "boom" rfl

end ReceiptRelay
